import Mathlib

/-!
# A shallow embedding of the MercuryITC driver's attribute access engine

This file embeds the parts of `src/mercuryitc/mercury_driver.py` that the
specification's claims are about: the caching property container
(`CachedPropertyContainer`), the scaled-value splitter
(`convert_scaled_values`), the heater module's `res`/`vlim`/`volt`/`powr`
attributes, the temperature module's `exct_type` and `loop_rset` attributes,
and the root driver's `time`/`date` attributes.

The transport is modelled as a pure oracle `Device : String → String` mapping
one request line to the device's one response line; every modelled operation
additionally returns the list of request lines it issued, so the number of
transport exchanges performed by a call is the length of that list.  Python
floats are modelled exactly by rationals (plus an `inf` point); every decimal
value on the modelled paths is rational, and NaN never arises.  Python object
identity (`is`), which is not a function of values, is abstracted as a boolean
parameter `ident`; any faithful instantiation satisfies
`ident a b = true → a = b` (identical objects are equal).
-/

deriving instance DecidableEq for Except

/-- Python exception values: the exception class plus its message. -/
inductive PyErr where
  | valueError (msg : String)
  | typeError (msg : String)
  | indexError (msg : String)
  deriving DecidableEq

/-- A Python float as produced by this driver: an exact finite value, modelled
as a rational, or the `float('inf')` sentinel used for an infinite ramp rate. -/
inductive PFloat where
  | fin (q : Rat)
  | inf
  deriving DecidableEq

/-- A Python value stored in an attribute cache or produced by a conversion
function; the driver only ever uses `str`, `int` and `float` conversions. -/
inductive PyVal where
  | str (s : String)
  | int (n : Int)
  | float (x : PFloat)
  deriving DecidableEq

/-- The decimal digit character for `d < 10`. -/
def digitChar (d : Nat) : Char := Char.ofNat (48 + d)

/-- Decimal digits of `n`, most significant first; the first argument is
recursion fuel, and `fuel = n + 1` is always sufficient. -/
def natDigitsAux : Nat → Nat → List Char
  | 0, _ => []
  | fuel + 1, n =>
    if n < 10 then [digitChar n]
    else natDigitsAux fuel (n / 10) ++ [digitChar (n % 10)]

/-- Decimal rendering of a natural number. -/
def natToDecString (n : Nat) : String := String.mk (natDigitsAux (n + 1) n)

/-- Decimal rendering of an integer, as Python's `'%i'` formatting produces. -/
def intToDecString : Int → String
  | Int.ofNat n => natToDecString n
  | Int.negSucc m => "-" ++ natToDecString (m + 1)

/-- Python `s.zfill(w)`: left-pad with `'0'` to width `w`, keeping a leading
sign in front of the padding. -/
def pyZfill (s : String) (w : Nat) : String :=
  match s.data with
  | '-' :: rest =>
    if rest.length + 1 < w then "-" ++ String.mk (List.replicate (w - 1 - rest.length) '0' ++ rest)
    else s
  | '+' :: rest =>
    if rest.length + 1 < w then "+" ++ String.mk (List.replicate (w - 1 - rest.length) '0' ++ rest)
    else s
  | l =>
    if l.length < w then String.mk (List.replicate (w - l.length) '0' ++ l)
    else s

/-- Does the character list `cs` start with `sep`? -/
def leadsWith : List Char → List Char → Bool
  | [], _ => true
  | _ :: _, [] => false
  | a :: s, b :: t => a == b && leadsWith s t

/-- Python `s.split(sep)` for a non-empty separator, over character lists:
scan left to right, splitting at each non-overlapping occurrence of `sep`.
The first argument is fuel; the length of the scanned list is sufficient. -/
def pySplitAux (sep : List Char) : Nat → List Char → List (List Char)
  | _, [] => [[]]
  | 0, cs => [cs]
  | fuel + 1, c :: cs =>
    if leadsWith sep (c :: cs) then
      [] :: pySplitAux sep fuel (List.drop (sep.length - 1) cs)
    else
      match pySplitAux sep fuel cs with
      | [] => [[c]]
      | h :: t => (c :: h) :: t

/-- Python `resp.split(':')`. -/
def pySplitColon (s : String) : List String :=
  (pySplitAux [':'] s.data.length s.data).map String.mk

/-- Python `s.split(sep)`, which raises `ValueError` on an empty separator. -/
def pySplit (s sep : String) : Except PyErr (List String) :=
  if sep.data.isEmpty then Except.error (PyErr.valueError "empty separator")
  else Except.ok ((pySplitAux sep.data s.data.length s.data).map String.mk)

/-- `sep.join(l)`. -/
def joinWith (sep : String) : List String → String
  | [] => ""
  | [s] => s
  | s :: rest => s ++ sep ++ joinWith sep rest

/-- The last element of Python `resp.split(':', resp.count(':') - ignored)`
as `_read_property` computes it: the trailing `ignored + 1` colon-delimited
segments of the response, rejoined.  When `ignored` exceeds the number of
colons the maxsplit is negative, which Python treats as an unlimited split,
whose last element is the final segment. -/
def readSegment (resp : String) (ignored : Nat) : String :=
  let parts := pySplitColon resp
  if ignored + 1 ≤ parts.length then joinWith ":" (parts.drop (parts.length - 1 - ignored))
  else parts.getLastD ""

/-- Numeric value of a list of decimal digits, most significant first. -/
def digitsVal (cs : List Char) : Nat := cs.foldl (fun a c => a * 10 + (c.toNat - 48)) 0

/-- Python `int(s)`: an optional sign followed by at least one digit.  (The
whitespace and underscore tolerances of CPython are never exercised here.) -/
def pyParseInt (s : String) : Option Int :=
  match s.data with
  | '-' :: cs => if !cs.isEmpty && cs.all Char.isDigit then some (-(digitsVal cs : Int)) else none
  | '+' :: cs => if !cs.isEmpty && cs.all Char.isDigit then some (digitsVal cs : Int) else none
  | cs => if !cs.isEmpty && cs.all Char.isDigit then some (digitsVal cs : Int) else none

/-- Unsigned part of Python `float(s)`: digits with at most one decimal point
and at least one digit. -/
def parseUnsignedFloat (cs : List Char) : Option Rat :=
  let ip := cs.takeWhile Char.isDigit
  let rest := cs.dropWhile Char.isDigit
  match rest with
  | [] => if ip.isEmpty then none else some (mkRat (digitsVal ip) 1)
  | c :: frac =>
    if c == '.' && frac.all Char.isDigit && !(ip.isEmpty && frac.isEmpty) then
      some (mkRat (digitsVal ip * 10 ^ frac.length + digitsVal frac) (10 ^ frac.length))
    else none

/-- Python `float(s)` on the strings this driver feeds to it: optional sign,
digits, at most one decimal point.  (Exponent, `inf` and `nan` spellings never
reach `float()` on the modelled paths.) -/
def pyParseFloat (s : String) : Option Rat :=
  match s.data with
  | '-' :: cs => (parseUnsignedFloat cs).map (fun q => mkRat (-q.num) q.den)
  | '+' :: cs => parseUnsignedFloat cs
  | cs => parseUnsignedFloat cs

/-- `'%f'` formatting of the non-negative value `n / d`: six decimal places,
rounding half-up.  (CPython rounds the underlying double half-to-even; every
value formatted in this development is an exact multiple of `1 / 1000000`, on
which the two rules agree.) -/
def fixed6OfNumDen (n d : Nat) : String :=
  let m := (2 * n * 1000000 + d) / (2 * d)
  natToDecString (m / 1000000) ++ "." ++ pyZfill (natToDecString (m % 1000000)) 6

/-- Python `'%f' % q` for a float of exact value `q`. -/
def formatFixed6 (q : Rat) : String :=
  if q.num < 0 then "-" ++ fixed6OfNumDen q.num.natAbs q.den
  else fixed6OfNumDen q.num.toNat q.den

/-- Decimal digits of the fractional part `r / d` (with `r < d`), stopping at
a zero remainder; the middle argument is fuel bounding the digit count. -/
def fracDigitsAux (d : Nat) : Nat → Nat → List Char
  | 0, _ => []
  | _, 0 => []
  | fuel + 1, r => digitChar ((r * 10) / d) :: fracDigitsAux d fuel ((r * 10) % d)

/-- Python `str(x)` for a float of exact value `q`: integer part, `'.'`, then
the fractional digits without trailing zeros (so `str(5.0) = "5.0"`).  This is
CPython's shortest-repr output whenever `q` has a terminating decimal
expansion of at most 17 digits, which covers every value rendered here. -/
def pyStrOfQ (q : Rat) : String :=
  let sign := if q.num < 0 then "-" else ""
  let n := q.num.natAbs
  let ds := fracDigitsAux q.den 17 (n % q.den)
  sign ++ natToDecString (n / q.den) ++ "." ++ (if ds.isEmpty then "0" else String.mk ds)

/-- Python `str` of a modelled float. -/
def pyStrOfFloat : PFloat → String
  | PFloat.fin q => pyStrOfQ q
  | PFloat.inf => "inf"

/-- Python `str(v)` / `'%s' % v`. -/
def pyStrOfVal : PyVal → String
  | PyVal.str s => s
  | PyVal.int n => intToDecString n
  | PyVal.float x => pyStrOfFloat x

/-- Python `'%s' % l` for a list of strings, as the rejection messages of the
enumerated setters render their allowed set. -/
def pyReprStrList (l : List String) : String :=
  "[" ++ joinWith ", " (l.map (fun s => "'" ++ s ++ "'")) ++ "]"

/-- The conversion function passed to the property helpers: the driver only
ever passes `float`, `int` or `str`. -/
inductive Conv where
  | toFloat
  | toInt
  | toStr
  deriving DecidableEq

/-- `convert(value)` on a response fragment; a failed conversion raises
`ValueError` as in Python. -/
def applyConv : Conv → String → Except PyErr PyVal
  | Conv.toStr, s => Except.ok (PyVal.str s)
  | Conv.toFloat, s =>
    match pyParseFloat s with
    | some q => Except.ok (PyVal.float (PFloat.fin q))
    | none => Except.error (PyErr.valueError ("could not convert string to float: " ++ s))
  | Conv.toInt, s =>
    match pyParseInt s with
    | some n => Except.ok (PyVal.int n)
    | none => Except.error (PyErr.valueError ("invalid literal for int() with base 10: " ++ s))

/-- The request rendering of the value in `_write_property`
(mercury_driver.py:102-107): `'%f' % value` when `convert == float`,
`'%i' % value` when `convert == int`, otherwise the value itself via `'%s'`
formatting; `%f`/`%i` applied to a `str` raise `TypeError` as in Python. -/
def writeValueStr : Conv → PyVal → Except PyErr String
  | Conv.toFloat, PyVal.float (PFloat.fin q) => Except.ok (formatFixed6 q)
  | Conv.toFloat, PyVal.float PFloat.inf => Except.ok "inf"
  | Conv.toFloat, PyVal.int n => Except.ok (formatFixed6 (mkRat n 1))
  | Conv.toFloat, PyVal.str _ => Except.error (PyErr.typeError "%f format: a number is required, not str")
  | Conv.toInt, PyVal.int n => Except.ok (intToDecString n)
  | Conv.toInt, PyVal.float (PFloat.fin q) => Except.ok (intToDecString (q.num.tdiv q.den))
  | Conv.toInt, PyVal.float PFloat.inf => Except.error (PyErr.valueError "cannot convert float infinity to integer")
  | Conv.toInt, PyVal.str _ => Except.error (PyErr.typeError "%i format: a number is required, not str")
  | Conv.toStr, v => Except.ok (pyStrOfVal v)

/-- `convert_scaled_values` (mercury_driver.py:69-79): keep every digit or
`'.'` of the string as the magnitude string `f`, take the last piece of
`s.split(f)` as the unit (Python's `split` raises `ValueError` on an empty
separator, which is caught and turned into the unit `'a.u.'`), then convert
`f` with `float`, whose failure propagates uncaught. -/
def convert_scaled_values (s : String) : Except PyErr (Rat × String) :=
  let f := String.mk (s.data.filter (fun c => c.isDigit || c == '.'))
  let unit :=
    match pySplit s f with
    | Except.ok parts => parts.getLastD ""
    | Except.error _ => "a.u."
  match pyParseFloat f with
  | some q => Except.ok (q, unit)
  | none => Except.error (PyErr.valueError ("could not convert string to float: " ++ f))

/-- The transport, modelled as a pure oracle from request line to response
line: `self.query(q)` returns `dev q`. -/
abbrev Device := String → String

/-- The per-object attribute cache `self._cache`: a mapping from property name
to last stored value. -/
abbrev Cache := List (String × PyVal)

/-- Python `self._cache[name]` / `name in self._cache`. -/
def cacheLookup : Cache → String → Option PyVal
  | [], _ => none
  | (k, v) :: rest, n => if k = n then some v else cacheLookup rest n

/-- Python `self._cache[name] = v`. -/
def cacheInsert (c : Cache) (n : String) (v : PyVal) : Cache :=
  (n, v) :: c.filter (fun p => p.1 != n)

/-- `CachedPropertyContainer._read_property` (mercury_driver.py:86-99): issue
`READ:<address>:<name>`, keep the trailing `ignored + 1` colon-delimited
segments of the response, and convert. -/
def read_property (dev : Device) (address name : String) (conv : Conv) (ignored : Nat) :
    Except PyErr PyVal × List String :=
  let q := "READ:" ++ address ++ ":" ++ name
  (applyConv conv (readSegment (dev q) ignored), [q])

/-- `CachedPropertyContainer._write_property` (mercury_driver.py:101-115):
render the value, issue `SET:<address>:<name>:<value>`, require the response's
last colon-delimited segment to be the literal token `VALID` (otherwise raise
`ValueError` carrying the request line), and on success return the converted
second-to-last segment — the device-confirmed value. -/
def write_property (dev : Device) (address name : String) (value : PyVal) (conv : Conv) :
    Except PyErr PyVal × List String :=
  match writeValueStr conv value with
  | Except.error e => (Except.error e, [])
  | Except.ok vs =>
    let q := "SET:" ++ address ++ ":" ++ name ++ ":" ++ vs
    let parts := pySplitColon (dev q)
    if parts.getLastD "" ≠ "VALID" then (Except.error (PyErr.valueError q), [q])
    else if 2 ≤ parts.length then (applyConv conv (parts.getD (parts.length - 2) ""), [q])
    else (Except.error (PyErr.indexError "list index out of range"), [q])

/-- `CachedPropertyContainer._read_cached_property` (mercury_driver.py:117-130):
serve from the cache when the name is present; otherwise fetch through
`_read_property` and, only on success, store the fetched value. -/
def read_cached_property (dev : Device) (cache : Cache) (address name : String)
    (conv : Conv) (ignored : Nat) : Except PyErr PyVal × Cache × List String :=
  match cacheLookup cache name with
  | some v => (Except.ok v, cache, [])
  | none =>
    match read_property dev address name conv ignored with
    | (Except.ok v, qs) => (Except.ok v, cacheInsert cache name v, qs)
    | (Except.error e, qs) => (Except.error e, cache, qs)

/-- Object identity (`is`) for a caller that passes the very object stored in
the cache (e.g. `htr.nick = htr.nick`, where the getter returns the cached
object itself): identity then coincides with value equality. -/
def identHit : PyVal → PyVal → Bool := fun a b => a == b

/-- Object identity (`is`) for a caller that passes a freshly constructed
object, which is identical to nothing already cached. -/
def identFresh : PyVal → PyVal → Bool := fun _ _ => false

/-- The condition `name not in self._cache or self._cache[name] is not value`
that guards the write in `_write_cached_property` (mercury_driver.py:133),
with object identity abstracted as `ident`. -/
def writeGuard (ident : PyVal → PyVal → Bool) (cache : Cache) (name : String)
    (value : PyVal) : Bool :=
  match cacheLookup cache name with
  | none => true
  | some c => !(ident c value)

/-- `CachedPropertyContainer._write_cached_property` (mercury_driver.py:132-135):
skip the exchange entirely when the name is cached and the cached object is
identical (`is`) to the supplied value; otherwise write through
`_write_property` and, only on success, store the device-confirmed value. -/
def write_cached_property (ident : PyVal → PyVal → Bool) (dev : Device) (cache : Cache)
    (address name : String) (value : PyVal) (conv : Conv) :
    Except PyErr Unit × Cache × List String :=
  if writeGuard ident cache name value then
    match write_property dev address name value conv with
    | (Except.ok cv, qs) => (Except.ok (), cacheInsert cache name cv, qs)
    | (Except.error e, qs) => (Except.error e, cache, qs)
  else (Except.ok (), cache, [])

/-- Python `a <= b` for a caller-supplied number against a driver-produced
value; comparison against a string raises `TypeError` (Python 3 semantics). -/
def pyLEq (a : Rat) : PyVal → Except PyErr Bool
  | PyVal.float (PFloat.fin b) => Except.ok (decide (a ≤ b))
  | PyVal.float PFloat.inf => Except.ok true
  | PyVal.int n => Except.ok (decide (a ≤ mkRat n 1))
  | PyVal.str _ => Except.error (PyErr.typeError "unorderable types: float() <= str()")

/-- `MercuryITC_HTR.res` setter (mercury_driver.py:233-238): the range check
`20 <= val <= 100` guards a cached write of `RES`. -/
def res_setter (ident : PyVal → PyVal → Bool) (dev : Device) (cache : Cache)
    (address : String) (val : Rat) : Except PyErr Unit × Cache × List String :=
  if 20 ≤ val ∧ val ≤ 100 then
    write_cached_property ident dev cache address "RES" (PyVal.float (PFloat.fin val)) Conv.toFloat
  else (Except.error (PyErr.valueError "Only values between 20.0 and 100.0 allowed"), cache, [])

/-- `MercuryITC_HTR.vlim` getter (mercury_driver.py:244-247): a cached read of
`VLIM` with the `float` conversion. -/
def vlim_getter (dev : Device) (cache : Cache) (address : String) :
    Except PyErr PyVal × Cache × List String :=
  read_cached_property dev cache address "VLIM" Conv.toFloat 0

/-- `MercuryITC_HTR.volt` getter (mercury_driver.py:261-264): an uncached
signal read of `SIG:VOLT` fed through `convert_scaled_values`.  (The second
arm is unreachable: the `str` conversion always yields a `str`.) -/
def volt_getter (dev : Device) (address : String) :
    Except PyErr (Rat × String) × List String :=
  match read_property dev address "SIG:VOLT" Conv.toStr 0 with
  | (Except.ok (PyVal.str s), qs) => (convert_scaled_values s, qs)
  | (Except.ok _, qs) => (Except.error (PyErr.typeError "expected str"), qs)
  | (Except.error e, qs) => (Except.error e, qs)

/-- `MercuryITC_HTR.volt` setter (mercury_driver.py:266-272).  The chained
comparison `0 <= val[0] <= self.vlim` short-circuits, so `self.vlim` — a
cached read — is evaluated only when `0 <= val[0]`; the rejection message
evaluates `self.vlim` a second time.  The value written is
`''.join([str(v) for v in val])` through the uncached `_write_property`. -/
def volt_setter (dev : Device) (cache : Cache) (address : String)
    (mag : Rat) (unit : String) : Except PyErr Unit × Cache × List String :=
  if 0 ≤ mag then
    match vlim_getter dev cache address with
    | (Except.error e, c, qs) => (Except.error e, c, qs)
    | (Except.ok vv, c, qs) =>
      match pyLEq mag vv with
      | Except.error e => (Except.error e, c, qs)
      | Except.ok true =>
        match write_property dev address "SIG:VOLT" (PyVal.str (pyStrOfQ mag ++ unit)) Conv.toStr with
        | (r, qs2) => (r.map (fun _ => ()), c, qs ++ qs2)
      | Except.ok false =>
        match vlim_getter dev c address with
        | (Except.error e, c2, qs2) => (Except.error e, c2, qs ++ qs2)
        | (Except.ok vv2, c2, qs2) =>
          (Except.error (PyErr.valueError ("Only values from 0 to " ++ pyStrOfVal vv2 ++ " allowed.")), c2, qs ++ qs2)
  else
    match vlim_getter dev cache address with
    | (Except.error e, c, qs) => (Except.error e, c, qs)
    | (Except.ok vv, c, qs) =>
      (Except.error (PyErr.valueError ("Only values from 0 to " ++ pyStrOfVal vv ++ " allowed.")), c, qs)

/-- `MercuryITC_HTR.pmax` getter (mercury_driver.py:220-222): a cached read of
`PMAX`. -/
def pmax_getter (dev : Device) (cache : Cache) (address : String) :
    Except PyErr PyVal × Cache × List String :=
  read_cached_property dev cache address "PMAX" Conv.toFloat 0

/-- `MercuryITC_HTR.powr` setter (mercury_driver.py:289-298): first an uncached
read of `SIG:PWR`; the `'N/A'` sentinel raises the dry-environment
`ValueError`; otherwise the chained range check `0 <= val <= self.pmax`
(short-circuiting, with `self.pmax` a cached read that the rejection message
re-evaluates) guards an uncached write of `SIG:PWR`. -/
def powr_setter (dev : Device) (cache : Cache) (address : String) (val : Rat) :
    Except PyErr Unit × Cache × List String :=
  match read_property dev address "SIG:PWR" Conv.toStr 0 with
  | (Except.error e, qs0) => (Except.error e, cache, qs0)
  | (Except.ok ov, qs0) =>
    if ov = PyVal.str "N/A" then
      (Except.error (PyErr.valueError "Cannot set heater power in a dry environment"), cache, qs0)
    else if 0 ≤ val then
      match pmax_getter dev cache address with
      | (Except.error e, c1, qs1) => (Except.error e, c1, qs0 ++ qs1)
      | (Except.ok pv, c1, qs1) =>
        match pyLEq val pv with
        | Except.error e => (Except.error e, c1, qs0 ++ qs1)
        | Except.ok true =>
          match write_property dev address "SIG:PWR" (PyVal.float (PFloat.fin val)) Conv.toFloat with
          | (r, qs2) => (r.map (fun _ => ()), c1, qs0 ++ qs1 ++ qs2)
        | Except.ok false =>
          match pmax_getter dev c1 address with
          | (Except.error e, c2, qs2) => (Except.error e, c2, qs0 ++ qs1 ++ qs2)
          | (Except.ok pv2, c2, qs2) =>
            (Except.error (PyErr.valueError ("Only values from 0 to " ++ pyStrOfVal pv2 ++ " allowed")), c2, qs0 ++ qs1 ++ qs2)
    else
      match pmax_getter dev cache address with
      | (Except.error e, c1, qs1) => (Except.error e, c1, qs0 ++ qs1)
      | (Except.ok pv, c1, qs1) =>
        (Except.error (PyErr.valueError ("Only values from 0 to " ++ pyStrOfVal pv ++ " allowed")), c1, qs0 ++ qs1)

/-- `MercuryITC_TEMP.TYPES` (mercury_driver.py:304). -/
def TYPES : List String := ["PTC", "NTC", "DDE", "TCE"]

/-- `MercuryITC_TEMP.EXCT_TYPES` (mercury_driver.py:305). -/
def EXCT_TYPES : List String := ["UNIP", "BIP", "SOFT"]

/-- `MercuryITC_TEMP.exct_type` setter (mercury_driver.py:329-334): the guard
checks membership in `self.TYPES` (the sensor types), while the rejection
message lists `self.EXCT_TYPES`; an accepted value is written to `EXCT:TYPE`
through the caching layer. -/
def exct_type_setter (ident : PyVal → PyVal → Bool) (dev : Device) (cache : Cache)
    (address : String) (val : String) : Except PyErr Unit × Cache × List String :=
  if val ∉ TYPES then
    (Except.error (PyErr.valueError ("Only values from " ++ pyReprStrList EXCT_TYPES ++ " allowed")), cache, [])
  else
    write_cached_property ident dev cache address "EXCT:TYPE" (PyVal.str val) Conv.toStr

/-- `MercuryITC_TEMP.loop_rset` getter (mercury_driver.py:620-628): a cached
read of `LOOP:RSET`; the literal response `'infK/m'` is special-cased to
`float('inf')`, and every other string goes through `convert_scaled_values`,
of which only the magnitude is returned.  (The cached value is always a `str`
here; the `TypeError` arm models Python's failure on any other type.) -/
def loop_rset_getter (dev : Device) (cache : Cache) (address : String) :
    Except PyErr PFloat × Cache × List String :=
  match read_cached_property dev cache address "LOOP:RSET" Conv.toStr 0 with
  | (Except.error e, c, qs) => (Except.error e, c, qs)
  | (Except.ok v, c, qs) =>
    if v = PyVal.str "infK/m" then (Except.ok PFloat.inf, c, qs)
    else
      match v with
      | PyVal.str s =>
        match convert_scaled_values s with
        | Except.ok p => (Except.ok (PFloat.fin p.1), c, qs)
        | Except.error e => (Except.error e, c, qs)
      | _ => (Except.error (PyErr.typeError "expected str"), c, qs)

/-- `MercuryITC.time` setter (mercury_driver.py:961-977), at the root address
`SYS`: parse every colon-delimited field with `int` (any failure, or a field
count other than three, raises `ValueError` before any range check), check
hour, minute and second ranges in order, re-serialize each field zero-padded
to width two, and write through the uncached `_write_property`. -/
def time_setter (dev : Device) (val : String) : Except PyErr Unit × List String :=
  match (pySplitColon val).mapM pyParseInt with
  | none => (Except.error (PyErr.valueError "invalid literal for int() with base 10"), [])
  | some [hh, mm, ss] =>
    if hh < 0 ∨ 23 < hh then (Except.error (PyErr.valueError "Hours must be between 0 and 24"), [])
    else if mm < 0 ∨ 59 < mm then (Except.error (PyErr.valueError "Minutes must be between 0 and 60"), [])
    else if ss < 0 ∨ 59 < ss then (Except.error (PyErr.valueError "Seconds must be between 0 and 60"), [])
    else
      match write_property dev "SYS" "TIME"
          (PyVal.str (pyZfill (intToDecString hh) 2 ++ ":" ++ pyZfill (intToDecString mm) 2 ++ ":" ++ pyZfill (intToDecString ss) 2)) Conv.toStr with
      | (r, qs) => (r.map (fun _ => ()), qs)
  | some _ => (Except.error (PyErr.valueError "values to unpack (expected 3)"), [])

/-- `MercuryITC.date` setter (mercury_driver.py:984-1002), at the root address
`SYS`: parse every colon-delimited field with `int` (failures and wrong field
counts raise `ValueError` before any range check), zero-pad the year to width
four with no range check, check `1 <= month <= 12` and `0 <= day <= 31`
(the source's day check is `dd < 0 or dd > 31`), re-serialize zero-padded, and
write through the uncached `_write_property`. -/
def date_setter (dev : Device) (val : String) : Except PyErr Unit × List String :=
  match (pySplitColon val).mapM pyParseInt with
  | none => (Except.error (PyErr.valueError "invalid literal for int() with base 10"), [])
  | some [yyyy, mm, dd] =>
    if mm < 1 ∨ 12 < mm then (Except.error (PyErr.valueError "Month must be between 1 and 12"), [])
    else if dd < 0 ∨ 31 < dd then (Except.error (PyErr.valueError "Days must be between 0 and 31"), [])
    else
      match write_property dev "SYS" "DATE"
          (PyVal.str (pyZfill (intToDecString yyyy) 4 ++ ":" ++ pyZfill (intToDecString mm) 2 ++ ":" ++ pyZfill (intToDecString dd) 2)) Conv.toStr with
      | (r, qs) => (r.map (fun _ => ()), qs)
  | some _ => (Except.error (PyErr.valueError "values to unpack (expected 3)"), [])

/-- A device that accepts every request: the response echoes the request and
appends the `VALID` token, so the device-confirmed value of a write is the
echoed value segment. -/
def echoValid : Device := fun q => q ++ ":VALID"

/-- A device that rejects every request: the response echoes the request and
appends a terminal token other than `VALID`. -/
def echoInvalid : Device := fun q => q ++ ":INVALID"

/-- The device behind the C1 witness: every read of `RES` answers with the
value `50.0000`. -/
def devC1 : Device := fun _ => "STAT:DEV:MB0.H1:HTR:RES:50.0000"

theorem cacheLookup_insert_self (c : Cache) (n : String) (v : PyVal) :
    cacheLookup (cacheInsert c n v) n = some v := by
  simp [cacheInsert, cacheLookup]

theorem write_property_queries (dev : Device) (address name : String) (value : PyVal)
    (conv : Conv) (vs : String) (h : writeValueStr conv value = Except.ok vs) :
    (write_property dev address name value conv).2
      = ["SET:" ++ address ++ ":" ++ name ++ ":" ++ vs] := by
  simp only [write_property, h]
  split
  · rfl
  · split <;> rfl

/-- **C1.** For every cacheable attribute of a module or the driver root —
both use the same `CachedPropertyContainer` helpers, the root with address
`SYS` — two consecutive reads with no intervening write or invalidation issue
exactly one transport exchange: starting from a cache without the name, a
first read whose response converts successfully issues the single `READ`
request and stores the value, and the second read is served from the cache
with no exchange.  For every non-cacheable signal attribute, every read goes
through `_read_property` (here: `volt_getter` as the representative signal),
which issues its `READ` exchange unconditionally. -/
theorem c1_cacheable_single_exchange
    (dev : Device) (cache : Cache) (address name : String) (conv : Conv) (ignored : Nat)
    (v : PyVal)
    (hmiss : cacheLookup cache name = none)
    (hconv : applyConv conv (readSegment (dev ("READ:" ++ address ++ ":" ++ name)) ignored)
      = Except.ok v) :
    read_cached_property dev cache address name conv ignored
      = (Except.ok v, cacheInsert cache name v, ["READ:" ++ address ++ ":" ++ name])
    ∧ read_cached_property dev (cacheInsert cache name v) address name conv ignored
      = (Except.ok v, cacheInsert cache name v, [])
    ∧ (∀ (dev' : Device) (address' name' : String) (conv' : Conv) (ignored' : Nat),
        (read_property dev' address' name' conv' ignored').2
          = ["READ:" ++ address' ++ ":" ++ name'])
    ∧ (∀ (dev' : Device) (address' : String),
        (volt_getter dev' address').2 = ["READ:" ++ address' ++ ":" ++ "SIG:VOLT"]) := by
  refine ⟨?_, ?_, ?_, ?_⟩
  · simp only [read_cached_property, hmiss, read_property, hconv]
  · simp only [read_cached_property, cacheLookup_insert_self]
  · intro dev' address' name' conv' ignored'
    simp only [read_property]
  · intro dev' address'
    simp only [volt_getter, read_property, applyConv]

theorem c1_witness :
    cacheLookup ([] : Cache) "RES" = none
    ∧ read_cached_property devC1 [] "DEV:MB0.H1:HTR" "RES" Conv.toFloat 0
        = (Except.ok (PyVal.float (PFloat.fin 50)),
           cacheInsert [] "RES" (PyVal.float (PFloat.fin 50)), ["READ:DEV:MB0.H1:HTR:RES"])
    ∧ read_cached_property devC1 (cacheInsert [] "RES" (PyVal.float (PFloat.fin 50)))
          "DEV:MB0.H1:HTR" "RES" Conv.toFloat 0
        = (Except.ok (PyVal.float (PFloat.fin 50)),
           cacheInsert [] "RES" (PyVal.float (PFloat.fin 50)), []) := by
  have h := c1_cacheable_single_exchange devC1 [] "DEV:MB0.H1:HTR" "RES" Conv.toFloat 0
    (PyVal.float (PFloat.fin 50)) (by decide) (by decide)
  exact ⟨by decide, h.1, h.2.1⟩

/-- **C2.** For every write of a cacheable attribute in which a transport
exchange actually takes place (the identity guard passes and the value
renders), if the device's response line does not end in the literal token
`VALID` then the write raises `ValueError` carrying the request line, and the
attribute cache is returned unchanged — no entry added, removed or
overwritten. -/
theorem c2_rejected_write_cache_unchanged
    (ident : PyVal → PyVal → Bool) (dev : Device) (cache : Cache)
    (address name : String) (value : PyVal) (conv : Conv) (vs : String)
    (hguard : writeGuard ident cache name value = true)
    (hrender : writeValueStr conv value = Except.ok vs)
    (hreject : (pySplitColon (dev ("SET:" ++ address ++ ":" ++ name ++ ":" ++ vs))).getLastD ""
      ≠ "VALID") :
    write_cached_property ident dev cache address name value conv
      = (Except.error (PyErr.valueError ("SET:" ++ address ++ ":" ++ name ++ ":" ++ vs)), cache,
         ["SET:" ++ address ++ ":" ++ name ++ ":" ++ vs]) := by
  simp only [write_cached_property, hguard, if_true, write_property, hrender]
  rw [if_pos hreject]

theorem c2_witness :
    write_cached_property identFresh echoInvalid [("NICK", PyVal.str "old")] "DEV:MB0.H1:HTR"
        "NICK" (PyVal.str "bar") Conv.toStr
      = (Except.error (PyErr.valueError "SET:DEV:MB0.H1:HTR:NICK:bar"),
         [("NICK", PyVal.str "old")], ["SET:DEV:MB0.H1:HTR:NICK:bar"]) := by
  have h := c2_rejected_write_cache_unchanged identFresh echoInvalid
    [("NICK", PyVal.str "old")] "DEV:MB0.H1:HTR" "NICK" (PyVal.str "bar") Conv.toStr "bar"
    (by decide) (by decide) (by decide)
  exact h

/-- **C3.** Writing the heater's nominal resistance `res` with a value outside
`[20, 100]` raises `ValueError` with zero transport exchanges and an unchanged
cache; any value inside the inclusive bounds passes validation and is handed
to the cached write, and at the boundaries `20.0` and `100.0` the write is
performed (one `SET` exchange, here against a device that confirms every
request). -/
theorem c3_res_range_validation
    (ident : PyVal → PyVal → Bool) (dev : Device) (cache : Cache)
    (address : String) (val : Rat) :
    (¬ (20 ≤ val ∧ val ≤ 100) →
      res_setter ident dev cache address val
        = (Except.error (PyErr.valueError "Only values between 20.0 and 100.0 allowed"), cache, []))
    ∧ ((20 ≤ val ∧ val ≤ 100) →
      res_setter ident dev cache address val
        = write_cached_property ident dev cache address "RES" (PyVal.float (PFloat.fin val))
            Conv.toFloat)
    ∧ res_setter identFresh echoValid [] "DEV:MB0.H1:HTR" 20
        = (Except.ok (), [("RES", PyVal.float (PFloat.fin 20))],
           ["SET:DEV:MB0.H1:HTR:RES:20.000000"])
    ∧ res_setter identFresh echoValid [] "DEV:MB0.H1:HTR" 100
        = (Except.ok (), [("RES", PyVal.float (PFloat.fin 100))],
           ["SET:DEV:MB0.H1:HTR:RES:100.000000"]) := by
  refine ⟨?_, ?_, by decide, by decide⟩
  · intro h
    rw [res_setter, if_neg h]
  · intro h
    rw [res_setter, if_pos h]

theorem c3_witness :
    res_setter identFresh echoValid [] "DEV:MB0.H1:HTR" (mkRat 1999 100)
      = (Except.error (PyErr.valueError "Only values between 20.0 and 100.0 allowed"), [], [])
    ∧ res_setter identFresh echoValid [] "DEV:MB0.H1:HTR" (mkRat 10001 100)
      = (Except.error (PyErr.valueError "Only values between 20.0 and 100.0 allowed"), [], []) := by
  exact ⟨(c3_res_range_validation identFresh echoValid [] "DEV:MB0.H1:HTR" (mkRat 1999 100)).1
      (by decide),
    (c3_res_range_validation identFresh echoValid [] "DEV:MB0.H1:HTR" (mkRat 10001 100)).1
      (by decide)⟩

/-- **C4 counterexample.** The claim says every validated write reaches the
transport regardless of what is cached.  But `_write_cached_property` first
checks `name not in self._cache or self._cache[name] is not value` and skips
the exchange when the cached object is identical to the supplied one — as in
`htr.nick = htr.nick`, where the getter returns the cached object itself and
the setter receives it back: the validated write issues zero exchanges. -/
theorem c4_counterexample :
    write_cached_property identHit echoValid [("NICK", PyVal.str "foo")] "DEV:MB0.H1:HTR" "NICK"
        (PyVal.str "foo") Conv.toStr
      = (Except.ok (), [("NICK", PyVal.str "foo")], []) := by decide

/-- **C4 (amended).** A write of a cacheable attribute whose value passes
validation reaches the transport unless the attribute is already cached with
an object identical (`is`) to the supplied value, in which case it is skipped
with no exchange and no cache change; whenever the guard passes, the `SET`
exchange is issued, and only if it succeeds is the device-confirmed value —
never the caller-supplied one — stored in the cache, a failed exchange
leaving the cache unchanged. -/
theorem c4_validated_write_guarded
    (ident : PyVal → PyVal → Bool) (dev : Device) (cache : Cache)
    (address name : String) (value : PyVal) (conv : Conv) :
    (writeGuard ident cache name value = false →
      write_cached_property ident dev cache address name value conv = (Except.ok (), cache, []))
    ∧ (∀ vs, writeGuard ident cache name value = true →
        writeValueStr conv value = Except.ok vs →
        (write_cached_property ident dev cache address name value conv).2.2
          = ["SET:" ++ address ++ ":" ++ name ++ ":" ++ vs])
    ∧ (∀ cv, writeGuard ident cache name value = true →
        (write_property dev address name value conv).1 = Except.ok cv →
        write_cached_property ident dev cache address name value conv
          = (Except.ok (), cacheInsert cache name cv,
             (write_property dev address name value conv).2))
    ∧ (∀ e, writeGuard ident cache name value = true →
        (write_property dev address name value conv).1 = Except.error e →
        write_cached_property ident dev cache address name value conv
          = (Except.error e, cache, (write_property dev address name value conv).2)) := by
  refine ⟨?_, ?_, ?_, ?_⟩
  · intro h
    simp [write_cached_property, h]
  · intro vs hg hvs
    rcases hw : write_property dev address name value conv with ⟨r, qs⟩
    have hqs : qs = ["SET:" ++ address ++ ":" ++ name ++ ":" ++ vs] := by
      have h2 := write_property_queries dev address name value conv vs hvs
      rw [hw] at h2
      exact h2
    cases r with
    | ok cv => simp [write_cached_property, hg, hw, hqs]
    | error e => simp [write_cached_property, hg, hw, hqs]
  · intro cv hg hok
    rcases hw : write_property dev address name value conv with ⟨r, qs⟩
    have hr : r = Except.ok cv := by rw [hw] at hok; exact hok
    subst hr
    simp [write_cached_property, hg, hw]
  · intro e hg herr
    rcases hw : write_property dev address name value conv with ⟨r, qs⟩
    have hr : r = Except.error e := by rw [hw] at herr; exact herr
    subst hr
    simp [write_cached_property, hg, hw]

theorem c4_witness :
    write_cached_property identFresh echoValid [] "DEV:MB0.H1:HTR" "RES"
        (PyVal.float (PFloat.fin 30)) Conv.toFloat
      = (Except.ok (), cacheInsert [] "RES" (PyVal.float (PFloat.fin 30)),
         (write_property echoValid "DEV:MB0.H1:HTR" "RES" (PyVal.float (PFloat.fin 30))
            Conv.toFloat).2) := by
  exact (c4_validated_write_guarded identFresh echoValid [] "DEV:MB0.H1:HTR" "RES"
    (PyVal.float (PFloat.fin 30)) Conv.toFloat).2.2.1 (PyVal.float (PFloat.fin 30))
    (by decide) (by decide)

/-- **C5.** A successful write of a cacheable read-write attribute — the
guard passes, the value renders, the response ends in `VALID` and its
second-to-last colon-delimited segment converts to `v` — stores exactly that
device-confirmed `v` in the cache, and the following read returns `v` from
the cache with no exchange; whenever `v` differs from the caller's original
input, the read does not return that input. -/
theorem c5_roundtrip_device_confirmed
    (ident : PyVal → PyVal → Bool) (dev : Device) (cache : Cache)
    (address name : String) (value : PyVal) (conv : Conv) (vs : String) (v : PyVal) (ignored : Nat)
    (hguard : writeGuard ident cache name value = true)
    (hrender : writeValueStr conv value = Except.ok vs)
    (hvalid : (pySplitColon (dev ("SET:" ++ address ++ ":" ++ name ++ ":" ++ vs))).getLastD ""
      = "VALID")
    (hlen : 2 ≤ (pySplitColon (dev ("SET:" ++ address ++ ":" ++ name ++ ":" ++ vs))).length)
    (hconf : applyConv conv
        ((pySplitColon (dev ("SET:" ++ address ++ ":" ++ name ++ ":" ++ vs))).getD
          ((pySplitColon (dev ("SET:" ++ address ++ ":" ++ name ++ ":" ++ vs))).length - 2) "")
      = Except.ok v) :
    write_cached_property ident dev cache address name value conv
      = (Except.ok (), cacheInsert cache name v, ["SET:" ++ address ++ ":" ++ name ++ ":" ++ vs])
    ∧ read_cached_property dev (cacheInsert cache name v) address name conv ignored
      = (Except.ok v, cacheInsert cache name v, [])
    ∧ (v ≠ value →
        (read_cached_property dev (cacheInsert cache name v) address name conv ignored).1
          ≠ Except.ok value) := by
  have hwp : write_property dev address name value conv
      = (Except.ok v, ["SET:" ++ address ++ ":" ++ name ++ ":" ++ vs]) := by
    simp only [write_property, hrender]
    rw [if_neg (fun h => h hvalid), if_pos hlen, hconf]
  have hrd : read_cached_property dev (cacheInsert cache name v) address name conv ignored
      = (Except.ok v, cacheInsert cache name v, []) := by
    simp [read_cached_property, cacheLookup_insert_self]
  refine ⟨?_, hrd, ?_⟩
  · simp [write_cached_property, hguard, hwp]
  · intro hne
    rw [hrd]
    simpa using hne

/-- The device behind the C5 witness: it confirms every request with the
value `CONFIRMED`, differing from the caller's input. -/
def devC5 : Device := fun _ => "STAT:SET:DEV:MB0.H1:HTR:NICK:CONFIRMED:VALID"

theorem c5_witness :
    write_cached_property identFresh devC5 [] "DEV:MB0.H1:HTR" "NICK" (PyVal.str "requested")
        Conv.toStr
      = (Except.ok (), cacheInsert [] "NICK" (PyVal.str "CONFIRMED"),
         ["SET:DEV:MB0.H1:HTR:NICK:requested"])
    ∧ read_cached_property devC5 (cacheInsert [] "NICK" (PyVal.str "CONFIRMED")) "DEV:MB0.H1:HTR"
        "NICK" Conv.toStr 0
      = (Except.ok (PyVal.str "CONFIRMED"), cacheInsert [] "NICK" (PyVal.str "CONFIRMED"), [])
    ∧ (read_cached_property devC5 (cacheInsert [] "NICK" (PyVal.str "CONFIRMED")) "DEV:MB0.H1:HTR"
        "NICK" Conv.toStr 0).1 ≠ Except.ok (PyVal.str "requested") := by
  have h := c5_roundtrip_device_confirmed identFresh devC5 [] "DEV:MB0.H1:HTR" "NICK"
    (PyVal.str "requested") Conv.toStr "requested" (PyVal.str "CONFIRMED") 0
    (by decide) (by decide) (by decide) (by decide) (by decide)
  exact ⟨h.1, h.2.1, h.2.2 (by decide)⟩

/-- The device behind the C6 counterexample: its live `VLIM` reading is `40`,
and it confirms any `SET` request. -/
def devC6 : Device := fun q =>
  if q = "READ:DEV:MB0.H1:HTR:VLIM" then "STAT:DEV:MB0.H1:HTR:VLIM:40.0000"
  else "STAT:DEV:MB0.H1:HTR:SIG:VOLT:45.0V:VALID"

/-- **C6 counterexample.** With `VLIM` already cached at `50` while the
device's live limit reads `40`, writing `volt = (45, 'V')` is accepted and
issues exactly one exchange — the `SET` — and no `READ:...:VLIM` exchange:
the bound used by the validation is the cached `50`, not a value read from
the device immediately before validation (a live read would have returned
`40.0000` and rejected the value `45`). -/
theorem c6_counterexample :
    volt_setter devC6 [("VLIM", PyVal.float (PFloat.fin 50))] "DEV:MB0.H1:HTR" 45 "V"
      = (Except.ok (), [("VLIM", PyVal.float (PFloat.fin 50))],
         ["SET:DEV:MB0.H1:HTR:SIG:VOLT:45.0V"])
    ∧ devC6 "READ:DEV:MB0.H1:HTR:VLIM" = "STAT:DEV:MB0.H1:HTR:VLIM:40.0000" := by
  exact ⟨by decide, by decide⟩

/-- **C6 (amended).** The bound of the heater `volt` range check is obtained
by evaluating the cacheable `vlim` attribute on every write: when `VLIM` is
present in the cache the cached value is the bound and no `READ` exchange is
issued, and only when `VLIM` is absent from the cache does the write begin
with a `READ:<address>:VLIM` exchange. -/
theorem c6_vlim_cached_bound
    (dev : Device) (cache : Cache) (address : String) (mag : Rat) (unit : String) :
    (∀ b : Rat, 0 ≤ mag → cacheLookup cache "VLIM" = some (PyVal.float (PFloat.fin b)) →
      mag ≤ b →
      volt_setter dev cache address mag unit
        = ((write_property dev address "SIG:VOLT" (PyVal.str (pyStrOfQ mag ++ unit))
              Conv.toStr).1.map (fun _ => ()), cache,
           (write_property dev address "SIG:VOLT" (PyVal.str (pyStrOfQ mag ++ unit))
              Conv.toStr).2))
    ∧ (∀ b : Rat, 0 ≤ mag → cacheLookup cache "VLIM" = some (PyVal.float (PFloat.fin b)) →
      ¬ mag ≤ b →
      volt_setter dev cache address mag unit
        = (Except.error (PyErr.valueError ("Only values from 0 to " ++ pyStrOfQ b ++ " allowed.")),
           cache, []))
    ∧ (0 ≤ mag → cacheLookup cache "VLIM" = none →
      (volt_setter dev cache address mag unit).2.2.head?
        = some ("READ:" ++ address ++ ":" ++ "VLIM")) := by
  refine ⟨?_, ?_, ?_⟩
  · intro b h0 hc hle
    rcases hw : write_property dev address "SIG:VOLT" (PyVal.str (pyStrOfQ mag ++ unit)) Conv.toStr
      with ⟨r, qs2⟩
    simp [volt_setter, h0, vlim_getter, read_cached_property, hc, pyLEq, hle, hw]
  · intro b h0 hc hnle
    simp [volt_setter, h0, vlim_getter, read_cached_property, hc, pyLEq, hnle,
      pyStrOfVal, pyStrOfFloat]
  · intro h0 hnone
    simp only [volt_setter, if_pos h0, vlim_getter, read_cached_property, hnone, read_property]
    cases happ : applyConv Conv.toFloat
        (readSegment (dev ("READ:" ++ address ++ ":" ++ "VLIM")) 0) with
    | error e => simp [happ]
    | ok v =>
      simp only [happ]
      cases hle : pyLEq mag v with
      | error e => simp [hle]
      | ok b =>
        cases b with
        | true =>
          rcases hw : write_property dev address "SIG:VOLT" (PyVal.str (pyStrOfQ mag ++ unit))
            Conv.toStr with ⟨r, qs2⟩
          simp [hle, hw]
        | false => simp [hle, read_cached_property, cacheLookup_insert_self]

/-- The device behind the C6 witness: it confirms any request. -/
def devC6b : Device := fun _ => "STAT:DEV:MB0.H1:HTR:SIG:VOLT:10.0V:VALID"

theorem c6_witness :
    volt_setter devC6b [("VLIM", PyVal.float (PFloat.fin 30))] "DEV:MB0.H1:HTR" 40 "V"
      = (Except.error (PyErr.valueError "Only values from 0 to 30.0 allowed."),
         [("VLIM", PyVal.float (PFloat.fin 30))], [])
    ∧ (volt_setter devC6b [] "DEV:MB0.H1:HTR" 10 "V").2.2.head?
        = some "READ:DEV:MB0.H1:HTR:VLIM" := by
  have h := c6_vlim_cached_bound devC6b [("VLIM", PyVal.float (PFloat.fin 30))]
    "DEV:MB0.H1:HTR" 40 "V"
  have h2 := c6_vlim_cached_bound devC6b [] "DEV:MB0.H1:HTR" 10 "V"
  exact ⟨h.2.1 30 (by decide) (by decide) (by decide), h2.2.2 (by decide) (by decide)⟩

/-- **C7 counterexample.** The claim says the scaled-value splitter is
special-cased on the sentinel string `"infK/m"` to return `(+infinity, "K/m")`.
It is not: `convert_scaled_values("infK/m")` filters out no digits at all, the
empty-separator `split` failure is caught (unit `'a.u.'`), and `float('')`
then raises `ValueError` — the splitter returns no pair for this input. -/
theorem c7_counterexample :
    convert_scaled_values "infK/m"
      = Except.error (PyErr.valueError "could not convert string to float: ") := by decide

/-- **C7 (amended).** `convert_scaled_values("2.50V")` returns `(2.5, "V")`
(for this input, filtering the digit-and-dot characters coincides with taking
the maximal leading digit run, and the remainder is the unit).  The sentinel
`"infK/m"` is special-cased not in the splitter — which fails on it with a
`ValueError` — but in the `loop_rset` getter, which intercepts the literal
response `'infK/m'` before the splitter and returns `float('inf')` alone,
with no unit. -/
theorem c7_scaled_split
    (dev : Device) (cache : Cache) (address : String)
    (hsent : cacheLookup cache "LOOP:RSET" = some (PyVal.str "infK/m")) :
    convert_scaled_values "2.50V" = Except.ok (mkRat 5 2, "V")
    ∧ (∃ e, convert_scaled_values "infK/m" = Except.error e)
    ∧ loop_rset_getter dev cache address = (Except.ok PFloat.inf, cache, []) := by
  refine ⟨by decide, ⟨PyErr.valueError "could not convert string to float: ", by decide⟩, ?_⟩
  simp [loop_rset_getter, read_cached_property, hsent]

theorem c7_witness :
    loop_rset_getter echoValid [("LOOP:RSET", PyVal.str "infK/m")] "DEV:MB1.T1:TEMP"
      = (Except.ok PFloat.inf, [("LOOP:RSET", PyVal.str "infK/m")], []) :=
  (c7_scaled_split echoValid [("LOOP:RSET", PyVal.str "infK/m")] "DEV:MB1.T1:TEMP"
    (by decide)).2.2

/-- The device behind the first C8 run: its `SIG:PWR` sense line reads the
`N/A` sentinel. -/
def devC8a : Device := fun _ => "STAT:DEV:MB0.H1:HTR:SIG:PWR:N/A"

/-- The device behind the second C8 run: `SIG:PWR` reads a number and `PMAX`
reads `80`. -/
def devC8b : Device := fun q =>
  if q = "READ:DEV:MB0.H1:HTR:SIG:PWR" then "STAT:DEV:MB0.H1:HTR:SIG:PWR:12.0W"
  else "STAT:DEV:MB0.H1:HTR:PMAX:80.0000"

/-- **C8 counterexample.** The claim says the dry-environment failure is a
distinct `UnsupportedInEnvironment` error that callers can tell apart from
the range-validation error.  In the code both failures raise the same
exception class: writing power with the sense line at `N/A` and writing an
out-of-range power both produce `ValueError` (the `PyErr.valueError`
constructor here), differing only in their message text. -/
theorem c8_counterexample :
    powr_setter devC8a [] "DEV:MB0.H1:HTR" 5
      = (Except.error (PyErr.valueError "Cannot set heater power in a dry environment"),
         ([] : Cache), ["READ:DEV:MB0.H1:HTR:SIG:PWR"])
    ∧ powr_setter devC8b [] "DEV:MB0.H1:HTR" 100
      = (Except.error (PyErr.valueError "Only values from 0 to 80.0 allowed"),
         [("PMAX", PyVal.float (PFloat.fin 80))],
         ["READ:DEV:MB0.H1:HTR:SIG:PWR", "READ:DEV:MB0.H1:HTR:PMAX"]) := by
  exact ⟨by decide, by decide⟩

/-- **C8 (amended).** Writing the heater power while the underlying sense
line reports the `N/A` sentinel fails — before any validation and with only
the one sense-read exchange — with a `ValueError` whose message is
`'Cannot set heater power in a dry environment'`; this is the same exception
class as the range-validation error, so callers can distinguish the two
conditions only by message text, not by a distinct error type. -/
theorem c8_powr_dry_message
    (dev : Device) (cache : Cache) (address : String) (val : Rat)
    (hna : readSegment (dev ("READ:" ++ address ++ ":" ++ "SIG:PWR")) 0 = "N/A") :
    powr_setter dev cache address val
      = (Except.error (PyErr.valueError "Cannot set heater power in a dry environment"), cache,
         ["READ:" ++ address ++ ":" ++ "SIG:PWR"]) := by
  simp [powr_setter, read_property, applyConv, hna]

theorem c8_witness :
    powr_setter devC8a [] "DEV:MB0.H1:HTR" 7
      = (Except.error (PyErr.valueError "Cannot set heater power in a dry environment"),
         ([] : Cache), ["READ:DEV:MB0.H1:HTR:SIG:PWR"]) :=
  c8_powr_dry_message devC8a [] "DEV:MB0.H1:HTR" 7 (by decide)

/-- **C9 counterexample.** The claim says the day field is validated against
`1–31` with a validation error raised before any bytes are sent.  The code's
check is `dd < 0 or dd > 31`: writing the date `"2020:5:0"` (day `0`) passes
validation and sends the zero-padded `SET:SYS:DATE:2020:05:00` exchange. -/
theorem c9_counterexample :
    date_setter echoValid "2020:5:0" = (Except.ok (), ["SET:SYS:DATE:2020:05:00"]) := by decide

/-- **C9 (amended).** For the system time and date composite writes: a value
whose fields do not all parse as integers, or whose field count is not three,
raises `ValueError` before any range check and before any bytes are sent;
fields are then validated individually — hour `0–23`, minute and second
`0–59`, month `1–12`, and day `0–31` (not `1–31`: the source checks
`dd < 0 or dd > 31`) — each failure raising `ValueError` with no exchange;
in-range fields are re-serialized zero-padded to fixed width (two digits, the
year four) before transmission. -/
theorem c9_time_date_validation (dev : Device) (val : String) :
    ((pySplitColon val).mapM pyParseInt = none →
      time_setter dev val
        = (Except.error (PyErr.valueError "invalid literal for int() with base 10"), [])
      ∧ date_setter dev val
        = (Except.error (PyErr.valueError "invalid literal for int() with base 10"), []))
    ∧ (∀ l : List Int, (pySplitColon val).mapM pyParseInt = some l → l.length ≠ 3 →
      time_setter dev val = (Except.error (PyErr.valueError "values to unpack (expected 3)"), [])
      ∧ date_setter dev val = (Except.error (PyErr.valueError "values to unpack (expected 3)"), []))
    ∧ (∀ hh mm ss : Int, (pySplitColon val).mapM pyParseInt = some [hh, mm, ss] →
      ((hh < 0 ∨ 23 < hh) →
        time_setter dev val = (Except.error (PyErr.valueError "Hours must be between 0 and 24"), []))
      ∧ (0 ≤ hh → hh ≤ 23 → (mm < 0 ∨ 59 < mm) →
        time_setter dev val
          = (Except.error (PyErr.valueError "Minutes must be between 0 and 60"), []))
      ∧ (0 ≤ hh → hh ≤ 23 → 0 ≤ mm → mm ≤ 59 → (ss < 0 ∨ 59 < ss) →
        time_setter dev val
          = (Except.error (PyErr.valueError "Seconds must be between 0 and 60"), []))
      ∧ (0 ≤ hh → hh ≤ 23 → 0 ≤ mm → mm ≤ 59 → 0 ≤ ss → ss ≤ 59 →
        (time_setter dev val).2
          = ["SET:" ++ "SYS" ++ ":" ++ "TIME" ++ ":"
              ++ (pyZfill (intToDecString hh) 2 ++ ":" ++ pyZfill (intToDecString mm) 2 ++ ":"
                  ++ pyZfill (intToDecString ss) 2)]))
    ∧ (∀ yyyy mm dd : Int, (pySplitColon val).mapM pyParseInt = some [yyyy, mm, dd] →
      ((mm < 1 ∨ 12 < mm) →
        date_setter dev val = (Except.error (PyErr.valueError "Month must be between 1 and 12"), []))
      ∧ (1 ≤ mm → mm ≤ 12 → (dd < 0 ∨ 31 < dd) →
        date_setter dev val = (Except.error (PyErr.valueError "Days must be between 0 and 31"), []))
      ∧ (1 ≤ mm → mm ≤ 12 → 0 ≤ dd → dd ≤ 31 →
        (date_setter dev val).2
          = ["SET:" ++ "SYS" ++ ":" ++ "DATE" ++ ":"
              ++ (pyZfill (intToDecString yyyy) 4 ++ ":" ++ pyZfill (intToDecString mm) 2 ++ ":"
                  ++ pyZfill (intToDecString dd) 2)])) := by
  refine ⟨?_, ?_, ?_, ?_⟩
  · intro h
    exact ⟨by simp only [time_setter, h], by simp only [date_setter, h]⟩
  · intro l h hlen
    rcases l with _ | ⟨a, _ | ⟨b, _ | ⟨c, _ | ⟨d, t⟩⟩⟩⟩
    · exact ⟨by simp only [time_setter, h], by simp only [date_setter, h]⟩
    · exact ⟨by simp only [time_setter, h], by simp only [date_setter, h]⟩
    · exact ⟨by simp only [time_setter, h], by simp only [date_setter, h]⟩
    · simp at hlen
    · exact ⟨by simp only [time_setter, h], by simp only [date_setter, h]⟩
  · intro hh mm ss h
    refine ⟨?_, ?_, ?_, ?_⟩
    · intro hout
      simp only [time_setter, h]
      rw [if_pos hout]
    · intro h1 h2 hout
      simp only [time_setter, h]
      rw [if_neg (by omega), if_pos hout]
    · intro h1 h2 h3 h4 hout
      simp only [time_setter, h]
      rw [if_neg (by omega), if_neg (by omega), if_pos hout]
    · intro h1 h2 h3 h4 h5 h6
      simp only [time_setter, h]
      rw [if_neg (by omega), if_neg (by omega), if_neg (by omega)]
      exact write_property_queries dev "SYS" "TIME" _ Conv.toStr _ rfl
  · intro yyyy mm dd h
    refine ⟨?_, ?_, ?_⟩
    · intro hout
      simp only [date_setter, h]
      rw [if_pos hout]
    · intro h1 h2 hout
      simp only [date_setter, h]
      rw [if_neg (by omega), if_pos hout]
    · intro h1 h2 h3 h4
      simp only [date_setter, h]
      rw [if_neg (by omega), if_neg (by omega)]
      exact write_property_queries dev "SYS" "DATE" _ Conv.toStr _ rfl

theorem c9_witness :
    (time_setter echoValid "9:5:3").2 = ["SET:SYS:TIME:09:05:03"]
    ∧ (date_setter echoValid "2021:7:9").2 = ["SET:SYS:DATE:2021:07:09"]
    ∧ time_setter echoValid "24:0:0"
        = (Except.error (PyErr.valueError "Hours must be between 0 and 24"), []) := by
  have ht := c9_time_date_validation echoValid "9:5:3"
  have hd := c9_time_date_validation echoValid "2021:7:9"
  have ho := c9_time_date_validation echoValid "24:0:0"
  refine ⟨?_, ?_, ?_⟩
  · have h2 := (ht.2.2.1 9 5 3 (by decide)).2.2.2 (by decide) (by decide) (by decide)
      (by decide) (by decide) (by decide)
    exact h2.trans (by decide)
  · have h2 := (hd.2.2.2 2021 7 9 (by decide)).2.2 (by decide) (by decide) (by decide) (by decide)
    exact h2.trans (by decide)
  · exact (ho.2.2.1 24 0 0 (by decide)).1 (by decide)

theorem write_cached_property_queries (ident : PyVal → PyVal → Bool) (dev : Device)
    (cache : Cache) (address name : String) (value : PyVal) (conv : Conv) (vs : String)
    (hg : writeGuard ident cache name value = true)
    (hvs : writeValueStr conv value = Except.ok vs) :
    (write_cached_property ident dev cache address name value conv).2.2
      = ["SET:" ++ address ++ ":" ++ name ++ ":" ++ vs] := by
  rcases hw : write_property dev address name value conv with ⟨r, qs⟩
  have hqs : qs = ["SET:" ++ address ++ ":" ++ name ++ ":" ++ vs] := by
    have h2 := write_property_queries dev address name value conv vs hvs
    rw [hw] at h2
    exact h2
  cases r with
  | ok cv => simp [write_cached_property, hg, hw, hqs]
  | error e => simp [write_cached_property, hg, hw, hqs]

/-- **C10.** The `exct_type` setter accepts exactly the sensor-type tokens
`TYPES = {PTC, NTC, DDE, TCE}` and rejects every other string — in particular
each documented excitation value in `EXCT_TYPES = {UNIP, BIP, SOFT}` — with a
`ValueError` listing `EXCT_TYPES`, issuing no exchange and leaving the cache
unchanged; an accepted sensor-type token is sent to the device as a
`SET:<address>:EXCT:TYPE:<value>` exchange (here from a state where
`EXCT:TYPE` is not yet cached, so the write-skip guard passes). -/
theorem c10_exct_type_set_mixup
    (ident : PyVal → PyVal → Bool) (dev : Device) (cache : Cache)
    (address : String) (val : String) :
    (val ∉ TYPES →
      exct_type_setter ident dev cache address val
        = (Except.error (PyErr.valueError ("Only values from " ++ pyReprStrList EXCT_TYPES
            ++ " allowed")), cache, []))
    ∧ (val ∈ TYPES → cacheLookup cache "EXCT:TYPE" = none →
      (exct_type_setter ident dev cache address val).2.2
        = ["SET:" ++ address ++ ":" ++ "EXCT:TYPE" ++ ":" ++ val]) := by
  constructor
  · intro h
    rw [exct_type_setter, if_pos h]
  · intro hmem hnone
    have hg : writeGuard ident cache "EXCT:TYPE" (PyVal.str val) = true := by
      simp [writeGuard, hnone]
    rw [exct_type_setter, if_neg (fun h => h hmem)]
    exact write_cached_property_queries ident dev cache address "EXCT:TYPE" (PyVal.str val)
      Conv.toStr val hg rfl

theorem c10_witness :
    exct_type_setter identFresh echoValid [] "DEV:MB1.T1:TEMP" "UNIP"
      = (Except.error (PyErr.valueError "Only values from ['UNIP', 'BIP', 'SOFT'] allowed"),
         ([] : Cache), [])
    ∧ (exct_type_setter identFresh echoValid [] "DEV:MB1.T1:TEMP" "PTC").2.2
        = ["SET:DEV:MB1.T1:TEMP:EXCT:TYPE:PTC"] := by
  have h := c10_exct_type_set_mixup identFresh echoValid [] "DEV:MB1.T1:TEMP" "UNIP"
  have h2 := c10_exct_type_set_mixup identFresh echoValid [] "DEV:MB1.T1:TEMP" "PTC"
  exact ⟨h.1 (by decide), h2.2 (by decide) (by decide)⟩
